import Mathlib

/-!
Verification of the message-bus core of the Multi-Agent-Dev repository
(src/src/core/message_bus.py), via a shallow embedding of the `MessageBus`
class, the `Message` pydantic model and their helpers.

Modelling conventions:
* Python dicts that are used as ordered key/value tables (`self.subscriptions`,
  `self.handlers`) are association lists / id lists preserving insertion
  order; re-inserting a deleted key appends at the end, exactly as CPython
  dicts behave.
* The Redis client is a record with a `closed` flag; `connect` installs an
  open client, `disconnect` closes it but — as in the source — does not reset
  `self.redis_client` to `None`.
* asyncio listener tasks are records carrying the channel the coroutine was
  started with plus `cancelled`/`doneFlag` status bits; `str(task)` is
  modelled by `taskRepr` below (the CPython repr of a Task, which names the
  coroutine and its code location but never its arguments).
* Exceptions are `Except` results; "fire-and-forget" `asyncio.create_task`
  calls made by synchronous code are returned as a list of pending operations
  next to the new state.
* Wire encoding: `message.json()` followed by `json.loads` on the receiving
  side is modelled as a function into a JSON value tree; datetimes are
  serialized to their ISO 8601 text as pydantic does.
-/

namespace MB

/-- JSON-like values: the structured data produced by json.loads on the wire
text, and the value space of the open `payload : Dict[str, Any]` field. -/
inductive Json where
  | null : Json
  | str (s : String) : Json
  | num (n : Int) : Json
  | bool (b : Bool) : Json
  | arr (xs : List Json) : Json
  | obj (fields : List (String × Json)) : Json

/-- A naive datetime value (`datetime.datetime` without a timezone), the kind
produced by `datetime.now()` in the source. -/
structure DateTime where
  year : Nat
  month : Nat
  day : Nat
  hour : Nat
  minute : Nat
  second : Nat
  microsecond : Nat
deriving DecidableEq

/-- Field bounds of a representable `datetime.datetime` value, restricted to
four-digit years (every value `datetime.now()` produces has one). -/
def validDT (t : DateTime) : Prop :=
  1 ≤ t.year ∧ t.year ≤ 9999 ∧ 1 ≤ t.month ∧ t.month ≤ 12 ∧ 1 ≤ t.day ∧ t.day ≤ 31 ∧
  t.hour ≤ 23 ∧ t.minute ≤ 59 ∧ t.second ≤ 59 ∧ t.microsecond ≤ 999999

instance (t : DateTime) : Decidable (validDT t) := by
  unfold validDT
  infer_instance

/-- The decimal digit character for a digit `d` in 0..9. -/
def digitChar (d : Nat) : Char := Char.ofNat (48 + d)

/-- Numeric value of a decimal digit character. -/
def digitVal (c : Char) : Nat := c.toNat - 48

/-- Fixed-width zero-padded decimal rendering of `n` as `w` digit characters:
the shape strftime's zero-padded numeric directives and `datetime.isoformat`
produce for their fields. -/
def padDigits : Nat → Nat → List Char
  | 0, _ => []
  | w + 1, n => padDigits w (n / 10) ++ [digitChar (n % 10)]

/-- Read a digit string back into the number it denotes. -/
def readDigits (cs : List Char) : Nat := cs.foldl (fun a c => a * 10 + digitVal c) 0

/-- The six message types of the `MessageType(str, Enum)` enumeration. -/
inductive MessageType where
  | task_request | task_response | task_update | agent_status | system_alert | coordination
deriving DecidableEq

/-- Wire value of a `MessageType`, as pydantic serializes the str-enum. -/
def MessageType.toStr : MessageType → String
  | .task_request => "task_request"
  | .task_response => "task_response"
  | .task_update => "task_update"
  | .agent_status => "agent_status"
  | .system_alert => "system_alert"
  | .coordination => "coordination"

/-- Parse a wire string back into a `MessageType`, as pydantic validates the
enum field; unknown strings are rejected. -/
def MessageType.ofStr? (s : String) : Option MessageType :=
  if s = "task_request" then some .task_request
  else if s = "task_response" then some .task_response
  else if s = "task_update" then some .task_update
  else if s = "agent_status" then some .agent_status
  else if s = "system_alert" then some .system_alert
  else if s = "coordination" then some .coordination
  else none

/-- Characters of `datetime.isoformat()`, which pydantic's JSON encoder emits
for datetime fields: YYYY-MM-DDTHH:MM:SS, with a .ffffff suffix exactly when
the microsecond component is nonzero. -/
def isoChars (t : DateTime) : List Char :=
  padDigits 4 t.year ++ ('-' :: (padDigits 2 t.month ++ ('-' :: (padDigits 2 t.day ++
    ('T' :: (padDigits 2 t.hour ++ (':' :: (padDigits 2 t.minute ++ (':' :: (padDigits 2 t.second ++
    (if t.microsecond = 0 then [] else '.' :: padDigits 6 t.microsecond)))))))))))

/-- Parse an ISO datetime string back into its components, as pydantic does
when validating a datetime field from JSON text. -/
def parseIsoChars (cs : List Char) : Option DateTime :=
  match cs.drop 4 with
  | '-' :: r1 =>
    match r1.drop 2 with
    | '-' :: r2 =>
      match r2.drop 2 with
      | 'T' :: r3 =>
        match r3.drop 2 with
        | ':' :: r4 =>
          match r4.drop 2 with
          | ':' :: r5 =>
            match r5.drop 2 with
            | [] => some ⟨readDigits (cs.take 4), readDigits (r1.take 2), readDigits (r2.take 2),
                          readDigits (r3.take 2), readDigits (r4.take 2), readDigits (r5.take 2), 0⟩
            | '.' :: r6 =>
              if r6.length = 6 then
                some ⟨readDigits (cs.take 4), readDigits (r1.take 2), readDigits (r2.take 2),
                      readDigits (r3.take 2), readDigits (r4.take 2), readDigits (r5.take 2),
                      readDigits r6⟩
              else none
            | _ => none
          | _ => none
        | _ => none
      | _ => none
    | _ => none
  | _ => none

/-- Characters of `strftime` with format `%Y%m%d_%H%M%S_%f` applied to `t`
(four-digit year assumed, see `validDT`). -/
def strftimeChars (t : DateTime) : List Char :=
  padDigits 4 t.year ++ (padDigits 2 t.month ++ (padDigits 2 t.day ++
    ('_' :: (padDigits 2 t.hour ++ (padDigits 2 t.minute ++ (padDigits 2 t.second ++
    ('_' :: padDigits 6 t.microsecond)))))))

/-- The `Message.id` default factory:
`f"msg_{datetime.now().strftime('%Y%m%d_%H%M%S_%f')}"`. -/
def genId (t : DateTime) : String := "msg_" ++ String.mk (strftimeChars t)

/-- The correlation id generated by `request_response`:
`f"req_{datetime.now().strftime('%Y%m%d_%H%M%S_%f')}"`. -/
def reqCid (t : DateTime) : String := "req_" ++ String.mk (strftimeChars t)

/-- The id of the temporary `ResponseHandler` built by `request_response`:
`f"response_handler_{correlation_id}"`. -/
def rrHandlerId (t : DateTime) : String := "response_handler_" ++ reqCid t

/-- The `Message` pydantic model: standardized message format for agent
communication. -/
structure Message where
  id : String
  type : MessageType
  sender_id : String
  recipient_id : Option String
  payload : List (String × Json)
  timestamp : DateTime
  correlation_id : Option String
  priority : Int
  expires_at : Option DateTime

/-- First-match lookup in a JSON object field list. -/
def jLookup : List (String × Json) → String → Option Json
  | [], _ => none
  | (k, v) :: rest, key => if k = key then some v else jLookup rest key

/-- JSON encoding of an optional string field (pydantic emits null). -/
def optStrJson : Option String → Json
  | none => Json.null
  | some s => Json.str s

/-- JSON encoding of an optional datetime field. -/
def optDtJson : Option DateTime → Json
  | none => Json.null
  | some t => Json.str (String.mk (isoChars t))

/-- `message.json()` composed with `json.loads` on the receiving side:
the JSON tree pydantic writes for a `Message`. -/
def Message.toJson (m : Message) : Json :=
  Json.obj [("id", Json.str m.id), ("type", Json.str m.type.toStr),
            ("sender_id", Json.str m.sender_id),
            ("recipient_id", optStrJson m.recipient_id), ("payload", Json.obj m.payload),
            ("timestamp", Json.str (String.mk (isoChars m.timestamp))),
            ("correlation_id", optStrJson m.correlation_id), ("priority", Json.num m.priority),
            ("expires_at", optDtJson m.expires_at)]

/-- Decode a JSON value as an optional string field. -/
def asOptStr : Json → Option (Option String)
  | Json.null => some none
  | Json.str s => some (some s)
  | _ => none

/-- Decode a JSON value as an optional datetime field. -/
def asOptDT : Json → Option (Option DateTime)
  | Json.null => some none
  | Json.str s => (parseIsoChars s.data).map some
  | _ => none

/-- `Message(**msg_data)`: pydantic validation of a decoded JSON tree back
into a `Message`, including the `priority` range check (ge=1, le=10). -/
def Message.fromJson? (j : Json) : Option Message :=
  match j with
  | Json.obj fields =>
    match jLookup fields "id", jLookup fields "type", jLookup fields "sender_id",
          jLookup fields "recipient_id", jLookup fields "payload", jLookup fields "timestamp",
          jLookup fields "correlation_id", jLookup fields "priority", jLookup fields "expires_at" with
    | some (Json.str i), some (Json.str ty), some (Json.str snd), some rj, some (Json.obj pl),
      some (Json.str ts), some cj, some (Json.num p), some ej =>
      match MessageType.ofStr? ty, asOptStr rj, parseIsoChars ts.data, asOptStr cj, asOptDT ej with
      | some mt, some rcp, some tsv, some cid, some ex =>
        if 1 ≤ p ∧ p ≤ 10 then some ⟨i, mt, snd, rcp, pl, tsv, cid, p, ex⟩ else none
      | _, _, _, _, _ => none
    | _, _, _, _, _, _, _, _, _ => none
  | _ => none

/-- Validity of an optional expiry timestamp. -/
def validExpiry : Option DateTime → Prop
  | none => True
  | some t => validDT t

instance (o : Option DateTime) : Decidable (validExpiry o) :=
  match o with
  | none => isTrue trivial
  | some t => inferInstanceAs (Decidable (validDT t))

/-- A valid envelope: priority inside pydantic's declared [1,10] range and
representable datetime fields. -/
def validMessage (m : Message) : Prop :=
  1 ≤ m.priority ∧ m.priority ≤ 10 ∧ validDT m.timestamp ∧ validExpiry m.expires_at

/-- The Redis client handle; `closed` records that `close()` was awaited. -/
structure RedisClient where
  closed : Bool
deriving DecidableEq

/-- An asyncio task running `_listen_to_channel(channel)`. -/
structure ListenerTask where
  channel : String
  cancelled : Bool
  doneFlag : Bool
deriving DecidableEq

/-- Errors raised by the bus methods: `RuntimeError("Message bus not
connected")` in `publish`, `ValueError(f"Handler ... not registered")` in
`subscribe`, a transport-level error from the Redis library on a closed
connection, and pydantic's ValidationError from the `Message` constructor. -/
inductive BusError where
  | notConnected
  | notRegistered (hid : String)
  | transportClosed
  | validationError
deriving DecidableEq

/-- The mutable state of a `MessageBus` instance, plus a trace `published` of
every (channel, message) pair handed to the transport. -/
structure BusState where
  redis_client : Option RedisClient
  running : Bool
  handlers : List String
  subscriptions : List (String × List String)
  listener_tasks : List ListenerTask
  published : List (String × Message)

/-- The CPython repr of an asyncio Task wrapping
`MessageBus._listen_to_channel`: it shows the task state, a generated task
name and the coroutine qualname with its code location, but never the
coroutine's arguments, so the channel string the listener was started for
does not occur in it. -/
def taskRepr (_ : ListenerTask) : String :=
  "<Task pending name=Task-1 coro=<MessageBus._listen_to_channel() running at /app/src/core/message_bus.py:196>>"

/-- Scan for an occurrence of `needle` at any position of the haystack. -/
def infixCheck (needle : List Char) : List Char → Bool
  | [] => needle.isEmpty
  | c :: rest => needle.isPrefixOf (c :: rest) || infixCheck needle rest

/-- Python's substring test `needle in haystack` on strings. -/
def pyInStr (needle haystack : String) : Bool := infixCheck needle.data haystack.data

/-- First-match lookup in the subscriptions table (`channel in
self.subscriptions` / `self.subscriptions[channel]`). -/
def lookupSubs : List (String × List String) → String → Option (List String)
  | [], _ => none
  | (c, hs) :: rest, ch => if c = ch then some hs else lookupSubs rest ch

/-- In-place update of an existing key's value (`self.subscriptions[channel] = v`
for a present key). -/
def setSubs : List (String × List String) → String → List String → List (String × List String)
  | [], _, _ => []
  | (c, hs) :: rest, ch, v => if c = ch then (c, v) :: rest else (c, hs) :: setSubs rest ch v

/-- Deletion of a key (`del self.subscriptions[channel]`). -/
def delSubs : List (String × List String) → String → List (String × List String)
  | [], _ => []
  | (c, hs) :: rest, ch => if c = ch then rest else (c, hs) :: delSubs rest ch

/-- The handler ids currently subscribed to a channel (empty when the channel
has no entry). -/
def subscribersOf (s : BusState) (ch : String) : List String :=
  (lookupSubs s.subscriptions ch).getD []

/-- `connect()` on the success path: installs a live Redis client. -/
def connect (s : BusState) : BusState :=
  { s with redis_client := some { closed := false } }

/-- `disconnect()`: clears `running`, cancels every listener task and awaits
them (so they are done), then closes the Redis connection.  Note that
`self.redis_client` is closed but not reset to `None`. -/
def disconnect (s : BusState) : BusState :=
  { s with running := false,
           listener_tasks := s.listener_tasks.map (fun t => { t with cancelled := true, doneFlag := true }),
           redis_client := s.redis_client.map (fun c => { c with closed := true }) }

/-- `publish(channel, message)`: raises the not-connected RuntimeError when
`self.redis_client` is falsy (None), otherwise hands the serialized message to
the transport.  The Redis library's behaviour on a connection that was closed
by `disconnect` is modelled as a transport-level error distinct from the
not-connected guard. -/
def publish (s : BusState) (channel : String) (msg : Message) : Except BusError BusState :=
  match s.redis_client with
  | none => Except.error BusError.notConnected
  | some c =>
    if c.closed then Except.error BusError.transportClosed
    else Except.ok { s with published := s.published ++ [(channel, msg)] }

/-- `subscribe(channel, handler_id)`: rejects unknown handler ids, creates the
channel entry on demand, appends the handler if not already present, and
starts a listener task when the channel's handler list just became length 1.
No connection check is performed. -/
def subscribe (s : BusState) (channel hid : String) : Except BusError BusState :=
  if hid ∈ s.handlers then
    let subs0 := match lookupSubs s.subscriptions channel with
      | none => s.subscriptions ++ [(channel, [])]
      | some _ => s.subscriptions
    let cur := (lookupSubs subs0 channel).getD []
    if hid ∈ cur then Except.ok { s with subscriptions := subs0 }
    else
      let tasks := if (cur ++ [hid]).length = 1
        then s.listener_tasks ++ [{ channel := channel, cancelled := false, doneFlag := false }]
        else s.listener_tasks
      Except.ok { s with subscriptions := setSubs subs0 channel (cur ++ [hid]),
                         listener_tasks := tasks }
  else Except.error (BusError.notRegistered hid)

/-- The listener-cancellation search in `unsubscribe`: walk `listener_tasks`,
cancel the first not-yet-done task whose `str(task)` contains the channel
name, then break. -/
def cancelFirstMatching : List ListenerTask → String → List ListenerTask
  | [], _ => []
  | t :: ts, ch =>
    if (!t.doneFlag && pyInStr ch (taskRepr t)) then { t with cancelled := true } :: ts
    else t :: cancelFirstMatching ts ch

/-- `unsubscribe(channel, handler_id)`: removes the handler from the channel's
list; when the list becomes empty, deletes the channel entry and runs the
listener-cancellation search. -/
def unsubscribe (s : BusState) (channel hid : String) : BusState :=
  match lookupSubs s.subscriptions channel with
  | none => s
  | some l =>
    if hid ∈ l then
      let l2 := l.erase hid
      if l2 = [] then
        { s with subscriptions := delSubs s.subscriptions channel,
                 listener_tasks := cancelFirstMatching s.listener_tasks channel }
      else { s with subscriptions := setSubs s.subscriptions channel l2 }
    else s

/-- `register_handler(handler)`: binds the handler id in the registry;
re-registering an existing id overwrites the binding (the key set and its
order are unchanged). -/
def register_handler (s : BusState) (hid : String) : BusState :=
  { s with handlers := if hid ∈ s.handlers then s.handlers else s.handlers ++ [hid] }

/-- `unregister_handler(handler_id)`: collects every channel whose list
contains the id, schedules (via `asyncio.create_task`, without awaiting) an
`unsubscribe` for each, and deletes the registry entry.  The scheduled
unsubscribes are returned as pending operations next to the new state. -/
def unregister_handler (s : BusState) (hid : String) : BusState × List (String × String) :=
  if hid ∈ s.handlers then
    let chans := (s.subscriptions.filter (fun e => decide (hid ∈ e.2))).map Prod.fst
    ({ s with handlers := s.handlers.erase hid }, chans.map (fun c => (c, hid)))
  else (s, [])

/-- Run the unsubscribe tasks scheduled by `unregister_handler` once the event
loop gets to them. -/
def runPendingUnsubs (s : BusState) (ops : List (String × String)) : BusState :=
  ops.foldl (fun st p => unsubscribe st p.1 p.2) s

/-- `_handle_message_safely(handler, message)`: invoke the handler; a raised
exception is caught and logged.  When the handler returns a response and the
original message has a truthy `sender_id`, the response is published to
`f"agent_{message.sender_id}_responses"`; a publish failure is caught by the
same try/except. -/
def handle_message_safely (behavior : Message → Except String (Option Message))
    (s : BusState) (msg : Message) : BusState :=
  match behavior msg with
  | Except.error _ => s
  | Except.ok none => s
  | Except.ok (some resp) =>
    if msg.sender_id ≠ "" then
      match publish s ("agent_" ++ msg.sender_id ++ "_responses") resp with
      | Except.error _ => s
      | Except.ok s2 => s2
    else s

/-- The fan-out step of `_listen_to_channel` for one decoded message: read the
channel's subscriber list at dispatch time, invoke `_handle_message_safely`
for every subscribed and registered handler (the concurrent gather is
linearized), and return the new state together with the ids that received the
message. -/
def dispatchMessage (behaviors : String → Message → Except String (Option Message))
    (s : BusState) (channel : String) (msg : Message) : BusState × List String :=
  match lookupSubs s.subscriptions channel with
  | none => (s, [])
  | some hids =>
    (hids.filter (fun h => decide (h ∈ s.handlers))).foldl
      (fun p hid => (handle_message_safely (behaviors hid) p.1 msg, p.2 ++ [hid]))
      (s, [])

/-- The envelope record the `Message(...)` constructor produces when
validation passes (`id` and `timestamp` filled from their default factories
at creation time `now`; `expires_at` is not passed by any bus call site). -/
def builtMessage (now : DateTime) (mtype : MessageType) (sender_id : String)
    (recipient_id : Option String) (payload : List (String × Json))
    (correlation_id : Option String) (priority : Int) : Message :=
  { id := genId now, type := mtype, sender_id := sender_id,
    recipient_id := recipient_id, payload := payload, timestamp := now,
    correlation_id := correlation_id, priority := priority, expires_at := none }

/-- The `Message(...)` constructor as called by `send_message` and
`request_response`: pydantic validates `priority` (ge=1, le=10, default 5)
and rejects out-of-range values with a ValidationError. -/
def mkMessage (now : DateTime) (mtype : MessageType) (sender_id : String)
    (recipient_id : Option String) (payload : List (String × Json))
    (correlation_id : Option String) (priority : Option Int) : Except BusError Message :=
  let p := priority.getD 5
  if p < 1 ∨ 10 < p then Except.error BusError.validationError
  else Except.ok (builtMessage now mtype sender_id recipient_id payload correlation_id p)

/-- `send_message(...) -> message_id`: build the envelope, pick the channel by
the truthiness of `recipient_id` (None and the empty string are falsy), publish
and return the new message's id. -/
def send_message (s : BusState) (sender_id : String) (recipient_id : Option String)
    (mtype : MessageType) (payload : List (String × Json)) (correlation_id : Option String)
    (priority : Int) (now : DateTime) : Except BusError (String × BusState) :=
  match mkMessage now mtype sender_id recipient_id payload correlation_id (some priority) with
  | Except.error e => Except.error e
  | Except.ok msg =>
    let channel := match recipient_id with
      | some r => if r = "" then "broadcast" else "agent_" ++ r
      | none => "broadcast"
    match publish s channel msg with
    | Except.error e => Except.error e
    | Except.ok s2 => Except.ok (msg.id, s2)

/-- The observable result of the correlator's wait inside `request_response`:
either the single-use handler captured a response before the timeout, or
`asyncio.wait_for` raised TimeoutError. -/
inductive RROutcome where
  | response (m : Message)
  | timeout

/-- The `finally` block of `request_response`: unsubscribe the single-use
handler from the response channel, unregister it, and (eventually) run the
unsubscribe tasks the unregister scheduled. -/
def rrCleanup (s : BusState) (rchan hid : String) : BusState :=
  let s3 := unsubscribe s rchan hid
  let r := unregister_handler s3 hid
  runPendingUnsubs r.1 r.2

/-- `request_response(...)`: generate a correlation id, register and subscribe
a single-use response handler on `f"agent_{sender_id}_responses"`, send the
request, then wait; the wait's result is given by `outcome`.  On the captured
response, the timeout and the send-failure path alike, the `finally` block
runs `rrCleanup`; a timeout returns None instead of raising. -/
def requestResponse (s : BusState) (sender_id recipient_id : String) (mtype : MessageType)
    (payload : List (String × Json)) (now : DateTime) (outcome : RROutcome) :
    Except BusError (Option Message) × BusState :=
  let cid := reqCid now
  let rchan := "agent_" ++ sender_id ++ "_responses"
  let hid := rrHandlerId now
  let s1 := register_handler s hid
  match subscribe s1 rchan hid with
  | Except.error e => (Except.error e, s1)
  | Except.ok s2 =>
    match send_message s2 sender_id (some recipient_id) mtype payload (some cid) 5 now with
    | Except.error e => (Except.error e, rrCleanup s2 rchan hid)
    | Except.ok pr =>
      match outcome with
      | RROutcome.response m => (Except.ok (some m), rrCleanup pr.2 rchan hid)
      | RROutcome.timeout => (Except.ok none, rrCleanup pr.2 rchan hid)

/-! Concrete inputs used by witnesses and counterexamples. -/

/-- A representative creation time. -/
def tW : DateTime := ⟨2025, 10, 12, 9, 30, 0, 123456⟩

/-- A second, distinct creation time. -/
def tW2 : DateTime := ⟨2025, 10, 12, 9, 30, 0, 123457⟩

/-- A representative valid message. -/
def mW : Message :=
  { id := "msg_1", type := MessageType.task_update, sender_id := "dev-1", recipient_id := none,
    payload := [("progress", Json.num 50)], timestamp := tW, correlation_id := none,
    priority := 5, expires_at := some tW2 }

/-- A never-connected bus with one registered handler. -/
def sC1 : BusState := ⟨none, false, ["agent_1"], [], [], []⟩

/-- A connected bus with one registered handler and nothing subscribed. -/
def sC2a : BusState := ⟨some ⟨false⟩, true, ["h1"], [], [], []⟩

/-- `sC2a` after `subscribe("broadcast", "h1")`. -/
def sC2b : BusState := match subscribe sC2a "broadcast" "h1" with
  | Except.ok s => s
  | Except.error _ => sC2a

/-- A connected bus with one worker handler subscribed to one channel. -/
def sC3 : BusState := ⟨some ⟨false⟩, true, ["worker"], [("jobs", ["worker"])],
  [⟨"jobs", false, false⟩], []⟩

/-- A connected bus with two handlers subscribed to the jobs channel. -/
def sC5 : BusState := ⟨some ⟨false⟩, true, ["h1", "h2"], [("jobs", ["h1", "h2"])],
  [⟨"jobs", false, false⟩], []⟩

/-- Handler behaviours where h1 raises and h2 succeeds without a response. -/
def behC5 : String → Message → Except String (Option Message) :=
  fun hid _ => if hid = "h1" then Except.error "boom" else Except.ok none

/-- `sC5` with one more registered-but-unsubscribed handler id. -/
def sC6 : BusState := ⟨some ⟨false⟩, true, ["w"], [], [], []⟩

/-- The state `subscribe sC6 "jobs" "w"` succeeds with. -/
def sC6ok : BusState := match subscribe sC6 "jobs" "w" with
  | Except.ok s => s
  | Except.error _ => sC6

/-- A bus whose handler h is registered and subscribed to two channels. -/
def sC7 : BusState := ⟨some ⟨false⟩, true, ["h", "k"], [("a", ["h", "k"]), ("b", ["h"])],
  [⟨"a", false, false⟩, ⟨"b", false, false⟩], []⟩

/-- A connected bus with empty tables. -/
def sC8 : BusState := ⟨some ⟨false⟩, true, [], [], [], []⟩

/-- Message-id generation as a function of the creation index, given the wall
clock reading `datetime.now()` returns at each creation. -/
def messageIdAt (clock : Nat → DateTime) (i : Nat) : String := genId (clock i)

instance (m : Message) : Decidable (validMessage m) := by
  unfold validMessage
  infer_instance

/-! Arithmetic and list lemmas about the digit rendering shared by the id
format and the ISO datetime encoding. -/

theorem padDigits_length (w n : Nat) : (padDigits w n).length = w := by
  induction w generalizing n with
  | zero => rfl
  | succ w ih => simp [padDigits, ih]

theorem digitVal_digitChar (d : Nat) (h : d < 10) : digitVal (digitChar d) = d := by
  interval_cases d <;> decide

theorem readDigits_append_digit (cs : List Char) (c : Char) :
    readDigits (cs ++ [c]) = readDigits cs * 10 + digitVal c := by
  simp [readDigits, List.foldl_append]

theorem readDigits_padDigits (w n : Nat) (h : n < 10 ^ w) : readDigits (padDigits w n) = n := by
  induction w generalizing n with
  | zero =>
    simp [padDigits, readDigits]
    omega
  | succ w ih =>
    have h10 : n / 10 < 10 ^ w := by
      rw [Nat.div_lt_iff_lt_mul (by norm_num)]
      calc n < 10 ^ (w + 1) := h
        _ = 10 ^ w * 10 := by ring
    have hm : n % 10 < 10 := Nat.mod_lt _ (by norm_num)
    simp [padDigits, readDigits_append_digit, ih _ h10, digitVal_digitChar _ hm]
    omega

theorem padDigits_inj {w n m : Nat} (hn : n < 10 ^ w) (hm : m < 10 ^ w)
    (h : padDigits w n = padDigits w m) : n = m := by
  have h2 := congrArg readDigits h
  rwa [readDigits_padDigits w n hn, readDigits_padDigits w m hm] at h2

theorem pad_peel {w n m : Nat} {l1 l2 : List Char} (hn : n < 10 ^ w) (hm : m < 10 ^ w)
    (h : padDigits w n ++ l1 = padDigits w m ++ l2) : n = m ∧ l1 = l2 := by
  obtain ⟨h1, h2⟩ := List.append_inj h (by rw [padDigits_length, padDigits_length])
  exact ⟨padDigits_inj hn hm h1, h2⟩

theorem take_pad_append (w n : Nat) (l : List Char) :
    (padDigits w n ++ l).take w = padDigits w n :=
  List.take_left' (padDigits_length w n)

theorem drop_pad_append (w n : Nat) (l : List Char) :
    (padDigits w n ++ l).drop w = l :=
  List.drop_left' (padDigits_length w n)

theorem ofStr_toStr (t : MessageType) : MessageType.ofStr? t.toStr = some t := by
  cases t <;> rfl

theorem parseIso_isoChars (t : DateTime) (h : validDT t) :
    parseIsoChars (isoChars t) = some t := by
  obtain ⟨y, mo, d, hh, mi, s, us⟩ := t
  unfold validDT at h
  dsimp only at h
  obtain ⟨h1, h2, h3, h4, h5, h6, h7, h8, h9, h10⟩ := h
  have e4 : (10 : Nat) ^ 4 = 10000 := by norm_num
  have e2 : (10 : Nat) ^ 2 = 100 := by norm_num
  have e6 : (10 : Nat) ^ 6 = 1000000 := by norm_num
  have hy : y < 10 ^ 4 := by omega
  have hmo : mo < 10 ^ 2 := by omega
  have hd : d < 10 ^ 2 := by omega
  have hhh : hh < 10 ^ 2 := by omega
  have hmi : mi < 10 ^ 2 := by omega
  have hs : s < 10 ^ 2 := by omega
  have hus : us < 10 ^ 6 := by omega
  by_cases h0 : us = 0
  · subst h0
    simp only [isoChars, parseIsoChars, if_pos rfl, if_true, eq_self_iff_true,
      take_pad_append, drop_pad_append,
      readDigits_padDigits 4 y hy, readDigits_padDigits 2 mo hmo, readDigits_padDigits 2 d hd,
      readDigits_padDigits 2 hh hhh, readDigits_padDigits 2 mi hmi, readDigits_padDigits 2 s hs]
  · simp only [isoChars, parseIsoChars, if_neg h0,
      take_pad_append, drop_pad_append, padDigits_length, if_pos rfl, if_true, eq_self_iff_true,
      readDigits_padDigits 4 y hy, readDigits_padDigits 2 mo hmo, readDigits_padDigits 2 d hd,
      readDigits_padDigits 2 hh hhh, readDigits_padDigits 2 mi hmi, readDigits_padDigits 2 s hs,
      readDigits_padDigits 6 us hus]

/-! Lemmas about the ordered-dict model of the subscription table. -/

theorem erase_append_self {α : Type} [DecidableEq α] (l : List α) (a : α) (h : a ∉ l) :
    (l ++ [a]).erase a = l := by
  induction l with
  | nil => simp
  | cons b bs ih =>
    have hb : b ≠ a := fun e => h (e ▸ List.mem_cons_self b bs)
    simp only [List.cons_append, List.erase_cons, beq_iff_eq, if_neg hb]
    rw [ih (fun hm => h (List.mem_cons_of_mem b hm))]

theorem lookup_append_self (l : List (String × List String)) (k : String) (v : List String)
    (h : lookupSubs l k = none) : lookupSubs (l ++ [(k, v)]) k = some v := by
  induction l with
  | nil => simp [lookupSubs]
  | cons e rest ih =>
    obtain ⟨c, hs⟩ := e
    by_cases hk : c = k
    · simp [lookupSubs, hk] at h
    · simp only [List.cons_append, lookupSubs, if_neg hk] at h ⊢
      exact ih h

theorem set_append (l : List (String × List String)) (k : String) (v w : List String)
    (h : lookupSubs l k = none) : setSubs (l ++ [(k, v)]) k w = l ++ [(k, w)] := by
  induction l with
  | nil => simp [setSubs]
  | cons e rest ih =>
    obtain ⟨c, hs⟩ := e
    by_cases hk : c = k
    · simp [lookupSubs, hk] at h
    · simp only [lookupSubs, if_neg hk] at h
      simp only [List.cons_append, setSubs, if_neg hk]
      exact congrArg _ (ih h)

theorem del_append (l : List (String × List String)) (k : String) (v : List String)
    (h : lookupSubs l k = none) : delSubs (l ++ [(k, v)]) k = l := by
  induction l with
  | nil => simp [delSubs]
  | cons e rest ih =>
    obtain ⟨c, hs⟩ := e
    by_cases hk : c = k
    · simp [lookupSubs, hk] at h
    · simp only [lookupSubs, if_neg hk] at h
      simp only [List.cons_append, delSubs, if_neg hk]
      exact congrArg _ (ih h)

theorem lookup_set_self (l : List (String × List String)) (k : String) (v w : List String)
    (h : lookupSubs l k = some v) : lookupSubs (setSubs l k w) k = some w := by
  induction l with
  | nil => simp [lookupSubs] at h
  | cons e rest ih =>
    obtain ⟨c, hs⟩ := e
    by_cases hk : c = k
    · simp [setSubs, lookupSubs, hk]
    · simp only [lookupSubs, if_neg hk] at h
      simp only [setSubs, lookupSubs, if_neg hk, ih h]

theorem set_set (l : List (String × List String)) (k : String) (v w : List String) :
    setSubs (setSubs l k v) k w = setSubs l k w := by
  induction l with
  | nil => simp [setSubs]
  | cons e rest ih =>
    obtain ⟨c, hs⟩ := e
    by_cases hk : c = k
    · simp [setSubs, hk]
    · simp [setSubs, if_neg hk, ih]

theorem set_self_eq (l : List (String × List String)) (k : String) (v : List String)
    (h : lookupSubs l k = some v) : setSubs l k v = l := by
  induction l with
  | nil => simp [setSubs]
  | cons e rest ih =>
    obtain ⟨c, hs⟩ := e
    by_cases hk : c = k
    · simp only [lookupSubs, if_pos hk] at h
      obtain rfl := Option.some.inj h
      simp [setSubs, hk]
    · simp only [lookupSubs, if_neg hk] at h
      simp [setSubs, if_neg hk, ih h]

theorem lookup_set_ne (l : List (String × List String)) (k : String) (v : List String)
    (k2 : String) (h : k2 ≠ k) : lookupSubs (setSubs l k v) k2 = lookupSubs l k2 := by
  induction l with
  | nil => simp [setSubs]
  | cons e rest ih =>
    obtain ⟨c, hs⟩ := e
    by_cases hk : c = k
    · subst hk
      have hck : ¬ c = k2 := fun hx => h hx.symm
      simp [setSubs, lookupSubs, hck]
    · simp [setSubs, lookupSubs, if_neg hk, ih]

theorem lookup_del_ne (l : List (String × List String)) (k k2 : String) (h : k2 ≠ k) :
    lookupSubs (delSubs l k) k2 = lookupSubs l k2 := by
  induction l with
  | nil => simp [delSubs]
  | cons e rest ih =>
    obtain ⟨c, hs⟩ := e
    by_cases hk : c = k
    · subst hk
      have hck : ¬ c = k2 := fun hx => h hx.symm
      simp [delSubs, lookupSubs, hck]
    · simp [delSubs, lookupSubs, if_neg hk, ih]

theorem lookup_none_keys (l : List (String × List String)) (k : String)
    (h : k ∉ l.map Prod.fst) : lookupSubs l k = none := by
  induction l with
  | nil => rfl
  | cons e rest ih =>
    obtain ⟨c, hs⟩ := e
    simp only [List.map_cons, List.mem_cons, not_or] at h
    have hck : ¬ c = k := fun hx => h.1 hx.symm
    simp [lookupSubs, hck, ih h.2]

theorem lookup_del_self (l : List (String × List String)) (k : String)
    (h : (l.map Prod.fst).Nodup) : lookupSubs (delSubs l k) k = none := by
  induction l with
  | nil => rfl
  | cons e rest ih =>
    obtain ⟨c, hs⟩ := e
    simp only [List.map_cons, List.nodup_cons] at h
    by_cases hk : c = k
    · subst hk
      simp only [delSubs, if_pos rfl]
      exact lookup_none_keys rest c h.1
    · simp [delSubs, lookupSubs, if_neg hk, ih h.2]

theorem lookup_mem (l : List (String × List String)) (k : String) (v : List String)
    (h : lookupSubs l k = some v) : (k, v) ∈ l := by
  induction l with
  | nil => simp [lookupSubs] at h
  | cons e rest ih =>
    obtain ⟨c, hs⟩ := e
    by_cases hk : c = k
    · simp only [lookupSubs, if_pos hk] at h
      obtain rfl := Option.some.inj h
      subst hk
      exact List.mem_cons_self _ _
    · simp only [lookupSubs, if_neg hk] at h
      exact List.mem_cons_of_mem _ (ih h)

theorem map_fst_set (l : List (String × List String)) (k : String) (v : List String) :
    (setSubs l k v).map Prod.fst = l.map Prod.fst := by
  induction l with
  | nil => rfl
  | cons e rest ih =>
    obtain ⟨c, hs⟩ := e
    by_cases hk : c = k
    · simp [setSubs, hk]
    · simp [setSubs, if_neg hk, ih]

theorem delSubs_sublist (l : List (String × List String)) (k : String) :
    List.Sublist (delSubs l k) l := by
  induction l with
  | nil => simp [delSubs]
  | cons e rest ih =>
    obtain ⟨c, hs⟩ := e
    by_cases hk : c = k
    · simp only [delSubs, if_pos hk]
      exact List.sublist_cons_self _ _
    · simp only [delSubs, if_neg hk]
      exact List.Sublist.cons₂ _ ih

theorem mem_setSubs (l : List (String × List String)) (k : String) (v : List String)
    (e : String × List String) (h : e ∈ setSubs l k v) : e ∈ l ∨ e.2 = v := by
  induction l with
  | nil => simp [setSubs] at h
  | cons e0 rest ih =>
    obtain ⟨c, hs⟩ := e0
    by_cases hk : c = k
    · simp only [setSubs, if_pos hk, List.mem_cons] at h
      rcases h with h | h
      · right
        rw [h]
      · left
        exact List.mem_cons_of_mem _ h
    · simp only [setSubs, if_neg hk, List.mem_cons] at h
      rcases h with h | h
      · left
        rw [h]
        exact List.mem_cons_self _ _
      · rcases ih h with h2 | h2
        · exact Or.inl (List.mem_cons_of_mem _ h2)
        · exact Or.inr h2

/-! Claim C1. -/

/-- C1 counterexample: on a never-connected bus (client reference unset), a
subscribe for a registered handler succeeds instead of failing with the
not-connected error, refuting the claim that every publish/subscribe
operation invoked while disconnected fails with NotConnectedError. -/
theorem c1_counterexample :
    sC1.redis_client = none ∧ (subscribe sC1 "task_events" "agent_1").isOk = true :=
  ⟨rfl, rfl⟩

/-- C1 (amended): `publish` fails immediately with the not-connected error
(publishing nothing) precisely when the client reference is unset, which
holds before the first `connect()` but not after `disconnect()` — disconnect
closes the client without clearing the reference, so the guard cannot fire
afterwards; `subscribe` performs no connection check at all and succeeds for
any registered handler even while disconnected. -/
theorem c1_amended :
    (∀ (s : BusState) (ch : String) (m : Message), s.redis_client = none →
      publish s ch m = Except.error BusError.notConnected) ∧
    (∀ (s : BusState) (ch hid : String), hid ∈ s.handlers →
      (subscribe s ch hid).isOk = true) ∧
    (∀ (s : BusState) (c : RedisClient) (ch : String) (m : Message), s.redis_client = some c →
      (disconnect s).redis_client = some { closed := true } ∧
      publish (disconnect s) ch m ≠ Except.error BusError.notConnected) := by
  refine ⟨?_, ?_, ?_⟩
  · intro s ch m h
    simp [publish, h]
  · intro s ch hid h
    simp only [subscribe, if_pos h]
    split <;> rfl
  · intro s c ch m h
    refine ⟨by simp [disconnect, h], ?_⟩
    simp [publish, disconnect, h]

/-- C1 amended witness: concrete instances of each conjunct of `c1_amended`. -/
theorem c1_amended_witness :
    publish sC1 "jobs" mW = Except.error BusError.notConnected ∧
    (subscribe sC1 "task_events" "agent_1").isOk = true ∧
    (disconnect sC2a).redis_client = some { closed := true } ∧
    publish (disconnect sC2a) "jobs" mW ≠ Except.error BusError.notConnected :=
  ⟨c1_amended.1 sC1 "jobs" mW rfl,
   c1_amended.2.1 sC1 "task_events" "agent_1" (by decide),
   (c1_amended.2.2 sC2a ⟨false⟩ "jobs" mW rfl).1,
   (c1_amended.2.2 sC2a ⟨false⟩ "jobs" mW rfl).2⟩

/-! Claim C2. -/

/-- C2 failing-input evaluation: on a connected bus, subscribe the only
handler h1 to the broadcast channel (which starts its listener task), then
unsubscribe it.  The subscriber set becomes empty and the channel entry is
deleted, but the listener task is neither cancelled nor done, because the
cancellation search tests `channel in str(task)` and the repr of an asyncio
task does not contain the coroutine's channel argument.  The
listener-iff-nonempty invariant is violated. -/
theorem c2_code_bug_eval :
    lookupSubs sC2b.subscriptions "broadcast" = some ["h1"] ∧
    lookupSubs (unsubscribe sC2b "broadcast" "h1").subscriptions "broadcast" = none ∧
    (unsubscribe sC2b "broadcast" "h1").listener_tasks =
      [{ channel := "broadcast", cancelled := false, doneFlag := false }] :=
  ⟨rfl, rfl, rfl⟩

/-! Claim C9. -/

/-- C9 counterexample: two distinct envelope creations whose clock readings
fall in the same microsecond produce the same id string; the id default
factory depends only on the current time, so uniqueness fails. -/
theorem c9_counterexample :
    messageIdAt (fun _ => tW) 0 = messageIdAt (fun _ => tW) 1 ∧ (0 : Nat) ≠ 1 :=
  ⟨rfl, by decide⟩

/-- C9 (amended): generated ids collide exactly on equal clock readings: any
two creations with distinct microsecond-resolution timestamps produce
distinct ids (years are required to be four-digit, which is where the
`%Y` directive is fixed-width; `datetime.now()` always satisfies this). -/
theorem c9_amended (t1 t2 : DateTime) (hv1 : validDT t1) (hv2 : validDT t2)
    (hy1 : 1000 ≤ t1.year) (hy2 : 1000 ≤ t2.year) (hne : t1 ≠ t2) :
    genId t1 ≠ genId t2 := by
  intro h
  apply hne
  have hd := congrArg String.data h
  simp only [genId, String.data_append] at hd
  have hchars : strftimeChars t1 = strftimeChars t2 :=
    List.append_cancel_left hd
  obtain ⟨y1, mo1, d1, e1, f1, g1, u1⟩ := t1
  obtain ⟨y2, mo2, d2, e2, f2, g2, u2⟩ := t2
  unfold validDT at hv1 hv2
  dsimp only at hv1 hv2 hy1 hy2
  obtain ⟨a1, a2, a3, a4, a5, a6, a7, a8, a9, a10⟩ := hv1
  obtain ⟨b1, b2, b3, b4, b5, b6, b7, b8, b9, b10⟩ := hv2
  have p4 : (10 : Nat) ^ 4 = 10000 := by norm_num
  have p2 : (10 : Nat) ^ 2 = 100 := by norm_num
  have p6 : (10 : Nat) ^ 6 = 1000000 := by norm_num
  simp only [strftimeChars] at hchars
  obtain ⟨hy, hch⟩ := pad_peel (show y1 < 10 ^ 4 by omega) (show y2 < 10 ^ 4 by omega) hchars
  obtain ⟨hmo, hch⟩ := pad_peel (show mo1 < 10 ^ 2 by omega) (show mo2 < 10 ^ 2 by omega) hch
  obtain ⟨hdy, hch⟩ := pad_peel (show d1 < 10 ^ 2 by omega) (show d2 < 10 ^ 2 by omega) hch
  injection hch with hu hch
  obtain ⟨hhr, hch⟩ := pad_peel (show e1 < 10 ^ 2 by omega) (show e2 < 10 ^ 2 by omega) hch
  obtain ⟨hmi, hch⟩ := pad_peel (show f1 < 10 ^ 2 by omega) (show f2 < 10 ^ 2 by omega) hch
  obtain ⟨hs, hch⟩ := pad_peel (show g1 < 10 ^ 2 by omega) (show g2 < 10 ^ 2 by omega) hch
  injection hch with hu2 hch
  have hus := padDigits_inj (show u1 < 10 ^ 6 by omega) (show u2 < 10 ^ 6 by omega) hch
  subst hy
  subst hmo
  subst hdy
  subst hhr
  subst hmi
  subst hs
  subst hus
  rfl

/-- C9 amended witness: two concrete timestamps one microsecond apart give
distinct ids. -/
theorem c9_amended_witness : genId tW ≠ genId tW2 :=
  c9_amended tW tW2 (by decide) (by decide) (by decide) (by decide) (by decide)

/-! Claim C10. -/

/-- C10: the `Message` constructor rejects any priority outside [1,10] with a
validation error, so `send_message` with such a priority fails before
anything is handed to the transport; every successfully constructed envelope
has priority inside [1,10]; and an envelope created without an explicit
priority gets the declared default 5. -/
theorem c10_priority_validation :
    (∀ (p : Int) (now : DateTime) (mt : MessageType) (sender : String) (rcp : Option String)
       (pl : List (String × Json)) (cid : Option String) (s : BusState),
       (p < 1 ∨ 10 < p) →
       mkMessage now mt sender rcp pl cid (some p) = Except.error BusError.validationError ∧
       send_message s sender rcp mt pl cid p now = Except.error BusError.validationError) ∧
    (∀ (p : Int) (now : DateTime) (mt : MessageType) (sender : String) (rcp : Option String)
       (pl : List (String × Json)) (cid : Option String) (m : Message),
       mkMessage now mt sender rcp pl cid (some p) = Except.ok m →
       1 ≤ m.priority ∧ m.priority ≤ 10) ∧
    (∀ (now : DateTime) (mt : MessageType) (sender : String) (rcp : Option String)
       (pl : List (String × Json)) (cid : Option String),
       mkMessage now mt sender rcp pl cid none =
         Except.ok (builtMessage now mt sender rcp pl cid 5)) := by
  refine ⟨?_, ?_, ?_⟩
  · intro p now mt sender rcp pl cid s hp
    have hmk : mkMessage now mt sender rcp pl cid (some p) =
        Except.error BusError.validationError := by
      simp only [mkMessage, Option.getD_some]
      rw [if_pos hp]
    exact ⟨hmk, by simp only [send_message, hmk]⟩
  · intro p now mt sender rcp pl cid m h
    simp only [mkMessage, Option.getD_some] at h
    by_cases hp : p < 1 ∨ 10 < p
    · rw [if_pos hp] at h
      exact Except.noConfusion h
    · rw [if_neg hp] at h
      obtain rfl := Except.ok.inj h
      simp only [builtMessage]
      omega
  · intro now mt sender rcp pl cid
    simp only [mkMessage, Option.getD_none]
    rw [if_neg (by norm_num)]

/-- C10 witness: priority 11 is rejected by the constructor and by
`send_message`; priority 7 passes and is in range; priority omitted gives 5. -/
theorem c10_witness :
    mkMessage tW MessageType.task_request "a" none [] none (some 11) =
      Except.error BusError.validationError ∧
    send_message sC8 "a" none MessageType.task_request [] none 11 tW =
      Except.error BusError.validationError ∧
    (1 ≤ (builtMessage tW MessageType.task_request "a" none [] none 7).priority ∧
      (builtMessage tW MessageType.task_request "a" none [] none 7).priority ≤ 10) ∧
    mkMessage tW MessageType.task_request "a" none [] none none =
      Except.ok (builtMessage tW MessageType.task_request "a" none [] none 5) :=
  ⟨(c10_priority_validation.1 11 tW MessageType.task_request "a" none [] none sC8
      (by norm_num)).1,
   (c10_priority_validation.1 11 tW MessageType.task_request "a" none [] none sC8
      (by norm_num)).2,
   c10_priority_validation.2.1 7 tW MessageType.task_request "a" none [] none
      (builtMessage tW MessageType.task_request "a" none [] none 7) rfl,
   c10_priority_validation.2.2 tW MessageType.task_request "a" none [] none⟩

/-! Claim C5. -/

theorem dispatch_fold_received (behaviors : String → Message → Except String (Option Message))
    (msg : Message) (l : List String) :
    ∀ (st : BusState) (acc : List String),
      (l.foldl (fun p hid => (handle_message_safely (behaviors hid) p.1 msg, p.2 ++ [hid]))
        (st, acc)).2 = acc ++ l := by
  induction l with
  | nil => intro st acc; simp
  | cons a rest ih =>
    intro st acc
    simp only [List.foldl_cons, ih]
    simp

theorem hms_preserves (b : Message → Except String (Option Message)) (s : BusState)
    (msg : Message) :
    (handle_message_safely b s msg).handlers = s.handlers ∧
    (handle_message_safely b s msg).subscriptions = s.subscriptions ∧
    (handle_message_safely b s msg).listener_tasks = s.listener_tasks := by
  simp only [handle_message_safely]
  split
  · exact ⟨rfl, rfl, rfl⟩
  · exact ⟨rfl, rfl, rfl⟩
  · split
    · split
      · exact ⟨rfl, rfl, rfl⟩
      · next s2 heq =>
        simp only [publish] at heq
        split at heq
        · exact Except.noConfusion heq
        · split at heq
          · exact Except.noConfusion heq
          · obtain rfl := Except.ok.inj heq
            exact ⟨rfl, rfl, rfl⟩
    · exact ⟨rfl, rfl, rfl⟩

theorem dispatch_fold_preserves (behaviors : String → Message → Except String (Option Message))
    (msg : Message) (l : List String) :
    ∀ (st : BusState) (acc : List String),
      ((l.foldl (fun p hid => (handle_message_safely (behaviors hid) p.1 msg, p.2 ++ [hid]))
        (st, acc)).1.handlers = st.handlers ∧
       (l.foldl (fun p hid => (handle_message_safely (behaviors hid) p.1 msg, p.2 ++ [hid]))
        (st, acc)).1.subscriptions = st.subscriptions ∧
       (l.foldl (fun p hid => (handle_message_safely (behaviors hid) p.1 msg, p.2 ++ [hid]))
        (st, acc)).1.listener_tasks = st.listener_tasks) := by
  induction l with
  | nil => intro st acc; exact ⟨rfl, rfl, rfl⟩
  | cons a rest ih =>
    intro st acc
    simp only [List.foldl_cons]
    obtain ⟨i1, i2, i3⟩ := ih (handle_message_safely (behaviors a) st msg) (acc ++ [a])
    obtain ⟨p1, p2, p3⟩ := hms_preserves (behaviors a) st msg
    exact ⟨i1.trans p1, i2.trans p2, i3.trans p3⟩

/-- C5: the fan-out of one decoded message on a channel delivers it to every
handler that is subscribed to the channel and registered, whatever each
handler's behaviour is — in particular a handler raising an exception cannot
prevent any other handler from receiving and processing the message, since
the received-handler list does not depend on the behaviours at all — and the
dispatch leaves the listener task list (and the tables) intact, so the
channel's listener is not terminated. -/
theorem c5_handler_isolation :
    ∀ (behaviors : String → Message → Except String (Option Message)) (s : BusState)
      (ch : String) (m : Message) (hids : List String),
      lookupSubs s.subscriptions ch = some hids →
      (dispatchMessage behaviors s ch m).2 = hids.filter (fun x => decide (x ∈ s.handlers)) ∧
      (dispatchMessage behaviors s ch m).1.subscriptions = s.subscriptions ∧
      (dispatchMessage behaviors s ch m).1.listener_tasks = s.listener_tasks := by
  intro behaviors s ch m hids h
  simp only [dispatchMessage, h]
  refine ⟨?_, ?_, ?_⟩
  · rw [dispatch_fold_received]
    simp
  · exact (dispatch_fold_preserves behaviors m _ s []).2.1
  · exact (dispatch_fold_preserves behaviors m _ s []).2.2

/-- C5 witness: two handlers subscribed to the jobs channel, the first one
raising; both receive the message and the listener survives. -/
theorem c5_witness :
    (dispatchMessage behC5 sC5 "jobs" mW).2 = ["h1", "h2"] ∧
    (dispatchMessage behC5 sC5 "jobs" mW).1.listener_tasks = sC5.listener_tasks ∧
    (dispatchMessage behC5 sC5 "jobs" mW).1.subscriptions = sC5.subscriptions := by
  have h := c5_handler_isolation behC5 sC5 "jobs" mW ["h1", "h2"] rfl
  exact ⟨h.1.trans (by rfl), h.2.2, h.2.1⟩

/-! Claim C6. -/

/-- C6: `subscribe(channel, handler_id)` fails with the not-registered error
precisely when the handler id is not in the registry; for a registered id the
call succeeds and the id is in the channel's subscriber list afterwards. -/
theorem c6_subscribe_registration :
    ∀ (s : BusState) (ch hid : String),
      (subscribe s ch hid = Except.error (BusError.notRegistered hid) ↔ hid ∉ s.handlers) ∧
      (∀ s2, subscribe s ch hid = Except.ok s2 → hid ∈ subscribersOf s2 ch) ∧
      (hid ∈ s.handlers → (subscribe s ch hid).isOk = true) := by
  intro s ch hid
  refine ⟨⟨?_, ?_⟩, ?_, ?_⟩
  · intro h hmem
    simp only [subscribe, if_pos hmem] at h
    split at h <;> exact Except.noConfusion h
  · intro h
    simp only [subscribe, if_neg h]
  · intro s2 h
    by_cases hmem : hid ∈ s.handlers
    · simp only [subscribe, if_pos hmem] at h
      cases hl : lookupSubs s.subscriptions ch with
      | none =>
        simp only [hl, lookup_append_self _ _ _ hl, Option.getD_some,
          List.not_mem_nil, if_neg (fun hx => hx), List.nil_append] at h
        obtain rfl := Except.ok.inj h
        simp only [subscribersOf, set_append _ _ _ _ hl, lookup_append_self _ _ _ hl,
          Option.getD_some]
        exact List.mem_singleton.mpr rfl
      | some l =>
        simp only [hl, Option.getD_some] at h
        by_cases hcur : hid ∈ l
        · rw [if_pos hcur] at h
          obtain rfl := Except.ok.inj h
          simp only [subscribersOf, hl, Option.getD_some]
          exact hcur
        · rw [if_neg hcur] at h
          obtain rfl := Except.ok.inj h
          simp only [subscribersOf, lookup_set_self _ _ _ _ hl, Option.getD_some]
          simp
    · simp only [subscribe, if_neg hmem] at h
      exact Except.noConfusion h
  · intro hmem
    simp only [subscribe, if_pos hmem]
    split <;> rfl

/-- C6 witness: subscribing an unknown id fails with the not-registered
error; subscribing the registered id w succeeds and lands w in the channel's
subscriber list. -/
theorem c6_witness :
    subscribe sC6 "jobs" "ghost" = Except.error (BusError.notRegistered "ghost") ∧
    (subscribe sC6 "jobs" "w").isOk = true ∧
    "w" ∈ subscribersOf sC6ok "jobs" :=
  ⟨(c6_subscribe_registration sC6 "jobs" "ghost").1.mpr (by decide),
   (c6_subscribe_registration sC6 "jobs" "w").2.2 (by decide),
   (c6_subscribe_registration sC6 "jobs" "w").2.1 sC6ok rfl⟩

/-! Claim C8. -/

/-- C8 (amended): on a connected bus, `send_message` with a nonempty
recipient publishes the freshly built envelope to the directed channel
`agent_<recipient>` and returns its id; with no recipient it publishes to
`broadcast` and returns the id; and a handler response to a message whose
`sender_id` is nonempty is published to the reply channel
`agent_<sender_id>_responses`.  (The empty string is falsy in Python, so a
present-but-empty recipient also goes to broadcast, and a response to an
empty `sender_id` is dropped — see the counterexample.) -/
theorem c8_amended :
    (∀ (s : BusState) (c : RedisClient) (sender r : String) (mt : MessageType)
       (pl : List (String × Json)) (cid : Option String) (now : DateTime),
       s.redis_client = some c → c.closed = false → r ≠ "" →
       send_message s sender (some r) mt pl cid 5 now =
         Except.ok ((builtMessage now mt sender (some r) pl cid 5).id,
           { s with published :=
               s.published ++ [("agent_" ++ r, builtMessage now mt sender (some r) pl cid 5)] })) ∧
    (∀ (s : BusState) (c : RedisClient) (sender : String) (mt : MessageType)
       (pl : List (String × Json)) (cid : Option String) (now : DateTime),
       s.redis_client = some c → c.closed = false →
       send_message s sender none mt pl cid 5 now =
         Except.ok ((builtMessage now mt sender none pl cid 5).id,
           { s with published :=
               s.published ++ [("broadcast", builtMessage now mt sender none pl cid 5)] })) ∧
    (∀ (behavior : Message → Except String (Option Message)) (s : BusState) (c : RedisClient)
       (m resp : Message),
       s.redis_client = some c → c.closed = false → m.sender_id ≠ "" →
       behavior m = Except.ok (some resp) →
       (handle_message_safely behavior s m).published =
         s.published ++ [("agent_" ++ m.sender_id ++ "_responses", resp)]) := by
  refine ⟨?_, ?_, ?_⟩
  · intro s c sender r mt pl cid now hconn hopen hr
    simp only [send_message, mkMessage, Option.getD_some]
    rw [if_neg (by norm_num)]
    simp only [if_neg hr, publish, hconn, hopen]
    rfl
  · intro s c sender mt pl cid now hconn hopen
    simp only [send_message, mkMessage, Option.getD_some]
    rw [if_neg (by norm_num)]
    simp only [publish, hconn, hopen]
    rfl
  · intro behavior s c m resp hconn hopen hs hb
    simp only [handle_message_safely, hb, if_pos hs, publish, hconn, hopen]
    rfl

/-- C8 counterexample: with a present-but-empty recipient string, the
envelope is published to the broadcast channel, not to the directed channel
named from the recipient, refuting the claim for that given recipient. -/
theorem c8_counterexample :
    (send_message sC8 "alice" (some "") MessageType.task_update [] none 5 tW).map
      (fun p => p.2.published.map Prod.fst) = Except.ok ["broadcast"] ∧
    ("broadcast" : String) ≠ "agent_" ++ "" :=
  ⟨rfl, by decide⟩

/-- C8 amended witness: concrete directed send, broadcast send and handler
response publication. -/
theorem c8_amended_witness :
    send_message sC8 "dev-1" (some "bob") MessageType.task_request [] none 5 tW =
      Except.ok ((builtMessage tW MessageType.task_request "dev-1" (some "bob") [] none 5).id,
        { sC8 with published :=
            [("agent_bob", builtMessage tW MessageType.task_request "dev-1" (some "bob") [] none 5)] }) ∧
    send_message sC8 "dev-1" none MessageType.task_request [] none 5 tW =
      Except.ok ((builtMessage tW MessageType.task_request "dev-1" none [] none 5).id,
        { sC8 with published :=
            [("broadcast", builtMessage tW MessageType.task_request "dev-1" none [] none 5)] }) ∧
    (handle_message_safely (fun _ => Except.ok (some mW)) sC8 mW).published =
      [("agent_" ++ mW.sender_id ++ "_responses", mW)] :=
  ⟨c8_amended.1 sC8 ⟨false⟩ "dev-1" "bob" MessageType.task_request [] none tW rfl rfl
     (by decide),
   c8_amended.2.1 sC8 ⟨false⟩ "dev-1" MessageType.task_request [] none tW rfl rfl,
   c8_amended.2.2 (fun _ => Except.ok (some mW)) sC8 ⟨false⟩ mW mW rfl rfl (by decide) rfl⟩

/-! Claim C4. -/

theorem asOptStr_optStr (o : Option String) : asOptStr (optStrJson o) = some o := by
  cases o <;> rfl

theorem asOptDT_optDt (o : Option DateTime) (h : validExpiry o) :
    asOptDT (optDtJson o) = some o := by
  cases o with
  | none => rfl
  | some t =>
    simp only [optDtJson, asOptDT]
    rw [parseIso_isoChars t h]
    rfl

/-- C4: for every valid envelope — any id, type, sender, optional
recipient/correlation_id/expires_at, payload, and priority in [1,10] —
serializing with the pydantic encoder and re-validating the decoded JSON
reproduces every field exactly, including the type enumeration identity and
the presence-vs-absence of each optional field. -/
theorem c4_roundtrip (m : Message) (h : validMessage m) :
    Message.fromJson? (Message.toJson m) = some m := by
  obtain ⟨i, mt, snd, rcp, pl, ts, cid, p, ex⟩ := m
  unfold validMessage at h
  dsimp only at h
  obtain ⟨hp1, hp2, hts, hex⟩ := h
  have hd : ∀ cs : List Char, (String.mk cs).data = cs := fun _ => rfl
  simp only [Message.toJson, Message.fromJson?, jLookup]
  simp only [String.reduceEq, if_true, if_false, reduceIte]
  simp only [asOptStr_optStr, asOptDT_optDt ex hex, ofStr_toStr, hd,
    parseIso_isoChars ts hts]
  rw [if_pos ⟨hp1, hp2⟩]

/-- C4 witness: a concrete valid envelope with every optional field present
round-trips to itself. -/
theorem c4_roundtrip_witness :
    validMessage mW ∧ Message.fromJson? (Message.toJson mW) = some mW :=
  ⟨by decide, c4_roundtrip mW (by decide)⟩

/-! Claim C3. -/

theorem publish_ok_state (s : BusState) (ch : String) (m : Message) :
    ∀ s2, publish s ch m = Except.ok s2 →
      s2.handlers = s.handlers ∧ s2.subscriptions = s.subscriptions ∧
      s2.redis_client = s.redis_client := by
  intro s2 h
  simp only [publish] at h
  split at h
  · exact Except.noConfusion h
  · split at h
    · exact Except.noConfusion h
    · obtain rfl := Except.ok.inj h
      exact ⟨rfl, rfl, rfl⟩

theorem send_step (s : BusState) (ch : String) (msg : Message) :
    ∀ pr, (match publish s ch msg with
      | Except.error e => Except.error e
      | Except.ok s2 => Except.ok (msg.id, s2)) = Except.ok pr →
      pr.2.handlers = s.handlers ∧ pr.2.subscriptions = s.subscriptions ∧
      pr.2.redis_client = s.redis_client := by
  intro pr h
  rcases hp : publish s ch msg with e2 | s2
  · rw [hp] at h
    exact Except.noConfusion h
  · rw [hp] at h
    obtain rfl := Except.ok.inj h
    exact publish_ok_state _ _ _ s2 hp

theorem send_message_ok_state (s : BusState) (sender : String) (rcp : Option String)
    (mt : MessageType) (pl : List (String × Json)) (cid : Option String) (p : Int)
    (now : DateTime) :
    ∀ pr, send_message s sender rcp mt pl cid p now = Except.ok pr →
      pr.2.handlers = s.handlers ∧ pr.2.subscriptions = s.subscriptions ∧
      pr.2.redis_client = s.redis_client := by
  intro pr h
  rcases hmk : mkMessage now mt sender rcp pl cid (some p) with e | msg
  · simp only [send_message, hmk] at h
    exact Except.noConfusion h
  · simp only [send_message, hmk] at h
    exact send_step s _ msg pr h

theorem send_message_ok_exists (s : BusState) (c : RedisClient) (sender : String)
    (rcp : Option String) (mt : MessageType) (pl : List (String × Json))
    (cid : Option String) (now : DateTime)
    (hconn : s.redis_client = some c) (hopen : c.closed = false) :
    ∃ pr, send_message s sender rcp mt pl cid 5 now = Except.ok pr := by
  simp only [send_message, mkMessage, Option.getD_some]
  have hv : ¬((5 : Int) < 1 ∨ 10 < 5) := by norm_num
  simp only [hv, if_false, ite_false, publish, hconn, hopen]
  exact ⟨_, rfl⟩

theorem subscribe_fields (s : BusState) (ch hid : String) (hmem : hid ∈ s.handlers) :
    ∃ s2, subscribe s ch hid = Except.ok s2 ∧ s2.handlers = s.handlers ∧
      s2.redis_client = s.redis_client ∧
      (lookupSubs s.subscriptions ch = none →
        s2.subscriptions = s.subscriptions ++ [(ch, [hid])]) ∧
      (∀ l0, lookupSubs s.subscriptions ch = some l0 → hid ∉ l0 →
        s2.subscriptions = setSubs s.subscriptions ch (l0 ++ [hid])) := by
  cases hl : lookupSubs s.subscriptions ch with
  | none =>
    refine ⟨{ s with
        subscriptions := (setSubs (s.subscriptions ++ [(ch, [])]) ch ([] ++ [hid])),
        listener_tasks :=
          (s.listener_tasks ++ [{ channel := ch, cancelled := false, doneFlag := false }]) },
      ?_, rfl, rfl, ?_, ?_⟩
    · simp only [subscribe, if_pos hmem, hl, lookup_append_self _ _ _ hl, Option.getD_some]
      rw [if_neg (List.not_mem_nil hid)]
      norm_num
    · intro _
      rw [set_append _ _ _ _ hl]
      simp
    · intro l0 h0 _
      exact Option.noConfusion h0
  | some l =>
    by_cases hcur : hid ∈ l
    · refine ⟨{ s with subscriptions := s.subscriptions }, ?_, rfl, rfl, ?_, ?_⟩
      · simp only [subscribe, if_pos hmem, hl, Option.getD_some, if_pos hcur]
      · intro h0
        exact Option.noConfusion h0
      · intro l0 h0 hnm
        obtain rfl := Option.some.inj h0
        exact absurd hcur hnm
    · refine ⟨{ s with
          subscriptions := (setSubs s.subscriptions ch (l ++ [hid])),
          listener_tasks := (if (l ++ [hid]).length = 1
            then s.listener_tasks ++ [{ channel := ch, cancelled := false, doneFlag := false }]
            else s.listener_tasks) },
        ?_, rfl, rfl, ?_, ?_⟩
      · simp only [subscribe, if_pos hmem, hl, Option.getD_some, if_neg hcur]
      · intro h0
        exact Option.noConfusion h0
      · intro l0 h0 hnm
        obtain rfl := Option.some.inj h0
        rfl

theorem unreg_restores (s3 : BusState) (hid : String) (hs : List String)
    (hhid : hid ∉ hs)
    (hH : s3.handlers = hs ++ [hid])
    (hmem : ∀ e ∈ s3.subscriptions, hid ∉ e.2) :
    (runPendingUnsubs (unregister_handler s3 hid).1 (unregister_handler s3 hid).2).handlers
      = hs ∧
    (runPendingUnsubs (unregister_handler s3 hid).1 (unregister_handler s3 hid).2).subscriptions
      = s3.subscriptions := by
  have hmemH : hid ∈ s3.handlers := by
    rw [hH]
    simp
  have hfil : s3.subscriptions.filter (fun e => decide (hid ∈ e.2)) = [] :=
    List.filter_eq_nil_iff.mpr (fun e he => by simpa using hmem e he)
  simp only [unregister_handler, if_pos hmemH, hfil, List.map_nil, runPendingUnsubs,
    List.foldl_nil]
  constructor
  · rw [hH]
    exact erase_append_self hs hid hhid
  · trivial

theorem cleanup_restores_none (st : BusState) (rchan hid : String) (hs : List String)
    (subs0 : List (String × List String))
    (hhid : hid ∉ hs)
    (hl : lookupSubs subs0 rchan = none)
    (hmem : ∀ e ∈ subs0, hid ∉ e.2)
    (hH : st.handlers = hs ++ [hid])
    (hS : st.subscriptions = subs0 ++ [(rchan, [hid])]) :
    (rrCleanup st rchan hid).handlers = hs ∧ (rrCleanup st rchan hid).subscriptions = subs0 := by
  have hlook : lookupSubs st.subscriptions rchan = some [hid] := by
    rw [hS]
    exact lookup_append_self _ _ _ hl
  have hunsub : unsubscribe st rchan hid = { st with
      subscriptions := delSubs st.subscriptions rchan,
      listener_tasks := cancelFirstMatching st.listener_tasks rchan } := by
    simp [unsubscribe, hlook]
  have hsub3 : (unsubscribe st rchan hid).subscriptions = subs0 := by
    rw [hunsub]
    show delSubs st.subscriptions rchan = subs0
    rw [hS]
    exact del_append _ _ _ hl
  have hH3 : (unsubscribe st rchan hid).handlers = hs ++ [hid] := by
    rw [hunsub]
    exact hH
  have hmem3 : ∀ e ∈ (unsubscribe st rchan hid).subscriptions, hid ∉ e.2 := by
    rw [hsub3]
    exact hmem
  have hu := unreg_restores (unsubscribe st rchan hid) hid hs hhid hH3 hmem3
  exact ⟨hu.1, hu.2.trans hsub3⟩

theorem cleanup_restores_some (st : BusState) (rchan hid : String) (hs : List String)
    (subs0 : List (String × List String)) (l0 : List String)
    (hhid : hid ∉ hs)
    (hl : lookupSubs subs0 rchan = some l0)
    (hl0 : hid ∉ l0) (hl0ne : l0 ≠ [])
    (hmem : ∀ e ∈ subs0, hid ∉ e.2)
    (hH : st.handlers = hs ++ [hid])
    (hS : st.subscriptions = setSubs subs0 rchan (l0 ++ [hid])) :
    (rrCleanup st rchan hid).handlers = hs ∧ (rrCleanup st rchan hid).subscriptions = subs0 := by
  have hlook : lookupSubs st.subscriptions rchan = some (l0 ++ [hid]) := by
    rw [hS]
    exact lookup_set_self _ _ _ _ hl
  have herase : (l0 ++ [hid]).erase hid = l0 := erase_append_self l0 hid hl0
  have hin : hid ∈ l0 ++ [hid] := by simp
  have hunsub : unsubscribe st rchan hid =
      { st with subscriptions := setSubs st.subscriptions rchan l0 } := by
    simp only [unsubscribe, hlook, if_pos hin, herase, if_neg hl0ne]
  have hsub3 : (unsubscribe st rchan hid).subscriptions = subs0 := by
    rw [hunsub]
    show setSubs st.subscriptions rchan l0 = subs0
    rw [hS, set_set]
    exact set_self_eq _ _ _ hl
  have hH3 : (unsubscribe st rchan hid).handlers = hs ++ [hid] := by
    rw [hunsub]
    exact hH
  have hmem3 : ∀ e ∈ (unsubscribe st rchan hid).subscriptions, hid ∉ e.2 := by
    rw [hsub3]
    exact hmem
  have hu := unreg_restores (unsubscribe st rchan hid) hid hs hhid hH3 hmem3
  exact ⟨hu.1, hu.2.trans hsub3⟩

/-- C3: `request_response` restores the handler registry and the subscription
table to their exact pre-call state on every exit path — captured response,
timeout, and the send-failure (exception) path — because the `finally` block
unconditionally unsubscribes and unregisters the single-use handler; and on a
connected bus a timeout returns the explicit no-response value None instead
of raising.  The freshness hypotheses say the generated single-use handler id
is not already registered or subscribed, and that the table has no empty
subscriber lists — both hold in every reachable state. -/
theorem c3_request_response_cleanup :
    ∀ (s : BusState) (sender recipient : String) (mt : MessageType)
      (pl : List (String × Json)) (now : DateTime) (outcome : RROutcome),
      rrHandlerId now ∉ s.handlers →
      (∀ e ∈ s.subscriptions, rrHandlerId now ∉ e.2 ∧ e.2 ≠ []) →
      ((requestResponse s sender recipient mt pl now outcome).2.handlers = s.handlers ∧
       (requestResponse s sender recipient mt pl now outcome).2.subscriptions
         = s.subscriptions) ∧
      (∀ c : RedisClient, s.redis_client = some c → c.closed = false →
        outcome = RROutcome.timeout →
        (requestResponse s sender recipient mt pl now outcome).1 = Except.ok none) := by
  intro s sender recipient mt pl now outcome hh hsub
  have hmemS : ∀ e ∈ s.subscriptions, rrHandlerId now ∉ e.2 := fun e he => (hsub e he).1
  have hs1H : (register_handler s (rrHandlerId now)).handlers
      = s.handlers ++ [rrHandlerId now] := by
    simp [register_handler, hh]
  have hmem1 : rrHandlerId now ∈ (register_handler s (rrHandlerId now)).handlers := by
    rw [hs1H]
    simp
  obtain ⟨s2, hs2eq, hs2H, hs2rc, hs2none, hs2some⟩ :=
    subscribe_fields (register_handler s (rrHandlerId now))
      ("agent_" ++ sender ++ "_responses") (rrHandlerId now) hmem1
  have hs2H2 : s2.handlers = s.handlers ++ [rrHandlerId now] := hs2H.trans hs1H
  have hcleanup : ∀ st : BusState, st.handlers = s2.handlers →
      st.subscriptions = s2.subscriptions →
      (rrCleanup st ("agent_" ++ sender ++ "_responses") (rrHandlerId now)).handlers
        = s.handlers ∧
      (rrCleanup st ("agent_" ++ sender ++ "_responses") (rrHandlerId now)).subscriptions
        = s.subscriptions := by
    intro st hstH hstS
    cases hl : lookupSubs s.subscriptions ("agent_" ++ sender ++ "_responses") with
    | none =>
      exact cleanup_restores_none st _ _ s.handlers s.subscriptions hh hl hmemS
        (hstH.trans hs2H2) (hstS.trans (hs2none hl))
    | some l0 =>
      have hl0mem : (("agent_" ++ sender ++ "_responses"), l0) ∈ s.subscriptions :=
        lookup_mem _ _ _ hl
      exact cleanup_restores_some st _ _ s.handlers s.subscriptions l0 hh hl
        (hsub _ hl0mem).1 (hsub _ hl0mem).2 hmemS
        (hstH.trans hs2H2) (hstS.trans (hs2some l0 hl (hsub _ hl0mem).1))
  refine ⟨?_, ?_⟩
  · rcases hsend : send_message s2 sender (some recipient) mt pl (some (reqCid now)) 5 now
      with e2 | pr
    · simp only [requestResponse, hs2eq, hsend]
      exact hcleanup s2 rfl rfl
    · obtain ⟨hprH, hprS, _⟩ :=
        send_message_ok_state s2 sender (some recipient) mt pl (some (reqCid now)) 5 now pr hsend
      cases outcome with
      | response m =>
        simp only [requestResponse, hs2eq, hsend]
        exact hcleanup pr.2 hprH hprS
      | timeout =>
        simp only [requestResponse, hs2eq, hsend]
        exact hcleanup pr.2 hprH hprS
  · intro c hconn hopen hout
    subst hout
    obtain ⟨pr, hsend⟩ := send_message_ok_exists s2 c sender (some recipient) mt pl
      (some (reqCid now)) now (hs2rc.trans hconn) hopen
    simp only [requestResponse, hs2eq, hsend]

/-- C3 witness: a timed-out request on a concrete connected bus returns None
and leaves the registry and the subscription table exactly as before. -/
theorem c3_witness :
    (requestResponse sC3 "alice" "bob" MessageType.task_request [] tW
      RROutcome.timeout).2.handlers = sC3.handlers ∧
    (requestResponse sC3 "alice" "bob" MessageType.task_request [] tW
      RROutcome.timeout).2.subscriptions = sC3.subscriptions ∧
    (requestResponse sC3 "alice" "bob" MessageType.task_request [] tW
      RROutcome.timeout).1 = Except.ok none := by
  have h := c3_request_response_cleanup sC3 "alice" "bob" MessageType.task_request [] tW
    RROutcome.timeout (by decide) (by decide)
  exact ⟨h.1.1, h.1.2, h.2 ⟨false⟩ rfl rfl rfl⟩

/-! Claim C7. -/

theorem unsub_handlers (s : BusState) (ch hid : String) :
    (unsubscribe s ch hid).handlers = s.handlers := by
  unfold unsubscribe
  split
  · rfl
  · split
    · dsimp only
      split
      · rfl
      · rfl
    · rfl

theorem unsub_not_mem (s : BusState) (ch hid : String)
    (hkeys : (s.subscriptions.map Prod.fst).Nodup)
    (hvals : ∀ e ∈ s.subscriptions, e.2.Nodup) :
    hid ∉ subscribersOf (unsubscribe s ch hid) ch := by
  cases hl : lookupSubs s.subscriptions ch with
  | none =>
    simp only [unsubscribe, hl]
    simp [subscribersOf, hl]
  | some l =>
    have hnod : l.Nodup := hvals (ch, l) (lookup_mem _ _ _ hl)
    by_cases hmem : hid ∈ l
    · by_cases hemp : l.erase hid = []
      · simp only [unsubscribe, hl, if_pos hmem, if_pos hemp]
        simp [subscribersOf, lookup_del_self _ _ hkeys]
      · simp only [unsubscribe, hl, if_pos hmem, if_neg hemp]
        simp only [subscribersOf, lookup_set_self _ _ _ _ hl, Option.getD_some]
        exact fun hx => ((List.Nodup.mem_erase_iff hnod).mp hx).1 rfl
    · simp only [unsubscribe, hl, if_neg hmem]
      simp [subscribersOf, hl, hmem]

theorem unsub_other (s : BusState) (ch hid ch2 : String) (hne : ch2 ≠ ch) :
    subscribersOf (unsubscribe s ch hid) ch2 = subscribersOf s ch2 := by
  unfold unsubscribe
  split
  · rfl
  · split
    · dsimp only
      split
      · simp [subscribersOf, lookup_del_ne _ _ _ hne]
      · simp [subscribersOf, lookup_set_ne _ _ _ _ hne]
    · rfl

theorem unsub_keys (s : BusState) (ch hid : String)
    (hkeys : (s.subscriptions.map Prod.fst).Nodup) :
    ((unsubscribe s ch hid).subscriptions.map Prod.fst).Nodup := by
  unfold unsubscribe
  split
  · exact hkeys
  · split
    · dsimp only
      split
      · exact List.Nodup.sublist ((delSubs_sublist _ _).map _) hkeys
      · rw [map_fst_set]
        exact hkeys
    · exact hkeys

theorem unsub_vals (s : BusState) (ch hid : String)
    (hvals : ∀ e ∈ s.subscriptions, e.2.Nodup) :
    ∀ e ∈ (unsubscribe s ch hid).subscriptions, e.2.Nodup := by
  cases hl : lookupSubs s.subscriptions ch with
  | none =>
    simp only [unsubscribe, hl]
    exact hvals
  | some l =>
    have hnod : l.Nodup := hvals (ch, l) (lookup_mem _ _ _ hl)
    by_cases hmem : hid ∈ l
    · by_cases hemp : l.erase hid = []
      · simp only [unsubscribe, hl, if_pos hmem, if_pos hemp]
        intro e he
        exact hvals e ((delSubs_sublist _ _).subset he)
      · simp only [unsubscribe, hl, if_pos hmem, if_neg hemp]
        intro e he
        rcases mem_setSubs _ _ _ e he with h | h
        · exact hvals e h
        · rw [h]
          exact hnod.erase hid
    · simp only [unsubscribe, hl, if_neg hmem]
      exact hvals

theorem runPending_handlers (ops : List (String × String)) :
    ∀ st : BusState, (runPendingUnsubs st ops).handlers = st.handlers := by
  induction ops with
  | nil => intro st; rfl
  | cons p rest ih =>
    intro st
    simp only [runPendingUnsubs, List.foldl_cons]
    exact (ih (unsubscribe st p.1 p.2)).trans (unsub_handlers st p.1 p.2)

theorem fold_unsub_clears (hid : String) :
    ∀ (chans : List String) (st : BusState),
      (st.subscriptions.map Prod.fst).Nodup →
      (∀ e ∈ st.subscriptions, e.2.Nodup) →
      (∀ ch, hid ∈ subscribersOf st ch → ch ∈ chans) →
      ∀ ch, hid ∉ subscribersOf (runPendingUnsubs st (chans.map (fun c => (c, hid)))) ch := by
  intro chans
  induction chans with
  | nil =>
    intro st _ _ hcover ch
    simp only [List.map_nil, runPendingUnsubs, List.foldl_nil]
    exact fun hx => absurd (hcover ch hx) (List.not_mem_nil ch)
  | cons c rest ih =>
    intro st hkeys hvals hcover ch
    simp only [List.map_cons, runPendingUnsubs, List.foldl_cons]
    have hstep := ih (unsubscribe st c hid) (unsub_keys st c hid hkeys)
      (unsub_vals st c hid hvals) ?_ ch
    · exact hstep
    · intro ch2 hx
      by_cases hc : ch2 = c
      · subst hc
        exact absurd hx (unsub_not_mem st ch2 hid hkeys hvals)
      · rw [unsub_other st c hid ch2 hc] at hx
        rcases List.mem_cons.mp (hcover ch2 hx) with h | h
        · exact absurd h hc
        · exact h

/-- C7 counterexample: for a registered handler h subscribed to channel a,
right after `unregister_handler` returns, h is gone from the registry but the
channel still references it — the unsubscribes were only scheduled via
`asyncio.create_task`, not awaited — so the claim that no channel references
an unregistered handler after the operation completes is false at that point. -/
theorem c7_counterexample :
    "h" ∉ (unregister_handler sC7 "h").1.handlers ∧
    "h" ∈ subscribersOf (unregister_handler sC7 "h").1 "a" :=
  ⟨by decide, by decide⟩

/-- C7 (amended): `unregister_handler` removes a registered handler from the
registry immediately and schedules one deferred unsubscribe task per channel
whose subscriber list contains it; once those deferred tasks have run, no
channel's subscriber set contains the handler id (the Nodup hypotheses state
that the registry, the channel key list and every subscriber list are free of
duplicates, which holds in every reachable state). -/
theorem c7_amended :
    ∀ (s : BusState) (hid : String),
      hid ∈ s.handlers → s.handlers.Nodup →
      (s.subscriptions.map Prod.fst).Nodup →
      (∀ e ∈ s.subscriptions, e.2.Nodup) →
      hid ∉ (runPendingUnsubs (unregister_handler s hid).1
        (unregister_handler s hid).2).handlers ∧
      ∀ ch, hid ∉ subscribersOf
        (runPendingUnsubs (unregister_handler s hid).1 (unregister_handler s hid).2) ch := by
  intro s hid hreg hnd hkeys hvals
  have hunreg1 : (unregister_handler s hid).1 = { s with handlers := s.handlers.erase hid } := by
    simp only [unregister_handler, if_pos hreg]
  have hunreg2 : (unregister_handler s hid).2 =
      ((s.subscriptions.filter (fun e => decide (hid ∈ e.2))).map Prod.fst).map
        (fun c => (c, hid)) := by
    simp only [unregister_handler, if_pos hreg]
  constructor
  · rw [runPending_handlers, hunreg1]
    exact fun hx => ((List.Nodup.mem_erase_iff hnd).mp hx).1 rfl
  · rw [hunreg1, hunreg2]
    refine fold_unsub_clears hid _ _ ?_ ?_ ?_
    · exact hkeys
    · exact hvals
    intro ch hx
    cases hl : lookupSubs s.subscriptions ch with
    | none => simp [subscribersOf, hl] at hx
    | some l =>
      have hmeml : (ch, l) ∈ s.subscriptions := lookup_mem _ _ _ hl
      have hmem : hid ∈ l := by simpa [subscribersOf, hl] using hx
      exact List.mem_map.mpr ⟨(ch, l), List.mem_filter.mpr ⟨hmeml, by simpa using hmem⟩, rfl⟩

/-- C7 amended witness: after the deferred unsubscribes of the concrete
unregister run, handler h is referenced by no channel and is out of the
registry. -/
theorem c7_witness :
    "h" ∉ (runPendingUnsubs (unregister_handler sC7 "h").1
      (unregister_handler sC7 "h").2).handlers ∧
    "h" ∉ subscribersOf (runPendingUnsubs (unregister_handler sC7 "h").1
      (unregister_handler sC7 "h").2) "a" ∧
    "h" ∉ subscribersOf (runPendingUnsubs (unregister_handler sC7 "h").1
      (unregister_handler sC7 "h").2) "b" := by
  have h := c7_amended sC7 "h" (by decide) (by decide) (by decide) (by decide)
  exact ⟨h.1, h.2 "a", h.2 "b"⟩

end MB
